import Mathlib

/-!
Shallow embedding of the Identity & Workflow Authorization subsystem of the
job-matching backend (Express + Prisma, TypeScript).  Each route handler is
embedded as a pure function from the database state and the request data to a
pair of an HTTP response and the successor database state.  Randomness
(OTP draws), clock reads and bcrypt hashing are passed in as explicit
parameters, so the handlers themselves are deterministic functions of their
inputs, exactly mirroring the control flow of the TypeScript source.
-/

namespace JobAPI

/-- An HTTP JSON response: status code plus the JSON body, flattened to a list
of key/value string pairs in the order the source writes them. -/
structure Response where
  status : Nat
  body : List (String × String)
deriving DecidableEq, Repr

/-! ## Data model (prisma models referenced by the routes) -/

/-- prisma `user`: identity record. -/
structure User where
  id : Nat
  email : String
  passwordHash : String
  roleId : Nat
  isActive : Bool
deriving DecidableEq, Repr

/-- prisma `role`: role lookup table row. -/
structure Role where
  id : Nat
  name : String
deriving DecidableEq, Repr

/-- prisma `passwordReset`: one OTP recovery record.  Timestamps are naturals. -/
structure PasswordReset where
  id : Nat
  userId : Nat
  otpCode : String
  otpExpiry : Nat
  isUsed : Bool
deriving DecidableEq, Repr

/-- prisma `jobSeekerProfile` (only the fields the embedded routes read). -/
structure JobSeekerProfile where
  id : Nat
  userId : Nat
deriving DecidableEq, Repr

/-- prisma `shop` (only the fields the embedded routes read). -/
structure Shop where
  id : Nat
  userId : Nat
deriving DecidableEq, Repr

/-- prisma `shopJobPost` (only the fields the embedded routes read).  The
status is a string, as in the source, one of "open", "closed", "completed". -/
structure ShopJobPost where
  id : Nat
  shopId : Nat
  status : String
deriving DecidableEq, Repr

/-- prisma `application`.  The status is a string, as in the source, one of
"pending", "accepted", "rejected", "withdrawn". -/
structure Application where
  id : Nat
  seekerId : Nat
  postId : Nat
  status : String
deriving DecidableEq, Repr

/-- The relational store the Prisma client fronts: one list per table. -/
structure DB where
  users : List User
  roles : List Role
  passwordResets : List PasswordReset
  jobSeekerProfiles : List JobSeekerProfile
  shops : List Shop
  shopJobPosts : List ShopJobPost
  applications : List Application
deriving DecidableEq, Repr

/-! ## Prisma query helpers (the `where` clauses used by the routes) -/

/-- `prisma.user.findUnique(\x7b where: \x7b email \x7d \x7d)`. -/
def findUserByEmail (db : DB) (email : String) : Option User :=
  db.users.find? fun u => u.email == email

/-- `prisma.role.findUnique` via the `include: \x7b role: true \x7d` relation. -/
def findRoleById (db : DB) (roleId : Nat) : Option Role :=
  db.roles.find? fun r => r.id == roleId

/-- `prisma.jobSeekerProfile.findUnique(\x7b where: \x7b userId \x7d \x7d)`. -/
def findProfileByUserId (db : DB) (userId : Nat) : Option JobSeekerProfile :=
  db.jobSeekerProfiles.find? fun p => p.userId == userId

/-- `prisma.shop.findUnique(\x7b where: \x7b userId \x7d \x7d)`. -/
def findShopByUserId (db : DB) (userId : Nat) : Option Shop :=
  db.shops.find? fun s => s.userId == userId

/-- `prisma.shopJobPost.findUnique(\x7b where: \x7b id \x7d \x7d)`. -/
def findJobById (db : DB) (id : Nat) : Option ShopJobPost :=
  db.shopJobPosts.find? fun j => j.id == id

/-- `prisma.shopJobPost.findFirst(\x7b where: \x7b id, shopId \x7d \x7d)`. -/
def findJobByIdAndShop (db : DB) (id shopId : Nat) : Option ShopJobPost :=
  db.shopJobPosts.find? fun j => j.id == id && j.shopId == shopId

/-- `prisma.application.findUnique(\x7b where: \x7b id \x7d \x7d)`. -/
def findApplicationById (db : DB) (id : Nat) : Option Application :=
  db.applications.find? fun a => a.id == id

/-- `prisma.application.findUnique` on the composite key `seekerId_postId`. -/
def findApplicationByPair (db : DB) (seekerId postId : Nat) : Option Application :=
  db.applications.find? fun a => a.seekerId == seekerId && a.postId == postId

/-- The `where` clause of the reset-password OTP lookup:
`userId`, `otpCode`, `isUsed: false`, `otpExpiry: \x7b gte: now \x7d`. -/
def matchesReset (userId : Nat) (otpCode : String) (now : Nat) (r : PasswordReset) : Bool :=
  r.userId == userId && r.otpCode == otpCode && r.isUsed == false && decide (now ≤ r.otpExpiry)

/-- `prisma.passwordReset.findFirst` with the valid-OTP `where` clause. -/
def findValidReset (db : DB) (userId : Nat) (otpCode : String) (now : Nat) :
    Option PasswordReset :=
  db.passwordResets.find? (matchesReset userId otpCode now)

/-! ## src/lib/auth.ts — token service and OTP generator -/

/-- The payload `generateToken` signs and `verifyToken` returns. -/
structure JwtPayload where
  userId : Nat
  email : String
  roleId : Nat
deriving DecidableEq, Repr

/-- A signed token: the payload, the embedded expiry instant, and the key it
was signed with (standing for the signature). -/
structure Token where
  payload : JwtPayload
  exp : Nat
  signedWith : String
deriving DecidableEq, Repr

/-- The two failure causes of JWT verification. -/
inductive JwtError where
  | invalidToken
  | expiredToken
deriving DecidableEq, Repr

/-- Modelled from the spec: the external `jsonwebtoken` library's `verify`
(called by `verifyToken` in src/lib/auth.ts; the library itself is not part of
the repository).  Per the spec it fails with `InvalidToken` if the signature
does not match the key and with `ExpiredToken` if the current time is at or
past the embedded expiry. -/
def jwtVerify (t : Token) (secret : String) (now : Nat) : Except JwtError JwtPayload :=
  if t.signedWith ≠ secret then .error .invalidToken
  else if now ≥ t.exp then .error .expiredToken
  else .ok t.payload

/-- `verifyToken` from src/lib/auth.ts: wraps `jwt.verify` in a try/catch that
rethrows every failure as the single error "Invalid or expired token". -/
def verifyToken (t : Token) (secret : String) (now : Nat) : Except String JwtPayload :=
  match jwtVerify t secret now with
  | .ok p => .ok p
  | .error _ => .error "Invalid or expired token"

/-- `generateOTP` from src/lib/auth.ts computes
`Math.floor(100000 + Math.random() * 900000)`; the draw `r ∈ [0,1)` of
`Math.random()` is passed in explicitly.  This is the numeric value before
`.toString()`. -/
def generateOTPNum (r : ℚ) : Nat := (Int.floor (100000 + r * 900000 : ℚ)).toNat

/-- `Number.prototype.toString()` (radix 10) on a natural number: its decimal
digits, most significant first. -/
def natToString (n : Nat) : String :=
  String.mk ((Nat.digits 10 n).reverse.map Nat.digitChar)

/-- `generateOTP` from src/lib/auth.ts, with the random draw explicit. -/
def generateOTP (r : ℚ) : String := natToString (generateOTPNum r)

/-! ## src/middleware/auth.middleware.ts -/

/-- Outcome of a middleware: either a rejection response is sent, or the
request proceeds with the decoded payload attached as `req.user`. -/
inductive AuthOutcome where
  | reject (r : Response)
  | proceed (p : JwtPayload)
deriving DecidableEq, Repr

/-- `authenticate` from src/middleware/auth.middleware.ts.  `authHeader` is
`none` when the Authorization header is absent or lacks the "Bearer " prefix
(both rejected identically by the source), and `some t` when a token is
present after the prefix. -/
def authenticate (authHeader : Option Token) (secret : String) (now : Nat) : AuthOutcome :=
  match authHeader with
  | none => .reject ⟨401, [("error", "No token provided")]⟩
  | some t =>
    match verifyToken t secret now with
    | .error _ => .reject ⟨401, [("error", "Invalid or expired token")]⟩
    | .ok p => .proceed p

/-! ## src/routes/auth.routes.ts -/

/-- POST /api/auth/login.  `comparePassword` stands for the bcrypt comparison
of the supplied password against a stored hash; `token` stands for the token
string `generateToken` returns on the success path.  The success body is
flattened to its essential fields. -/
def login (db : DB) (email password : String)
    (comparePassword : String → String → Bool) (token : String) : Response :=
  match findUserByEmail db email with
  | none => ⟨401, [("error", "Invalid email or password")]⟩
  | some user =>
    if !user.isActive then ⟨403, [("error", "Account is deactivated")]⟩
    else if !comparePassword password user.passwordHash then
      ⟨401, [("error", "Invalid email or password")]⟩
    else
      match findRoleById db user.roleId with
      | none => ⟨500, [("error", "Login failed")]⟩
      | some role =>
        ⟨200, [("message", "Login successful"), ("email", user.email),
               ("roleName", role.name), ("token", token)]⟩

/-- POST /api/auth/forgot-password.  `freshId` is the id the store assigns to
a created row; `otpCode` and `otpExpiry` are the draws of `generateOTP` and
`getOTPExpiry` made inside the handler. -/
def forgotPassword (db : DB) (email : String) (freshId : Nat) (otpCode : String)
    (otpExpiry : Nat) : Response × DB :=
  match findUserByEmail db email with
  | none =>
    (⟨200, [("message", "If email exists, OTP has been sent")]⟩, db)
  | some user =>
    (⟨200, [("message", "OTP sent to email"), ("otpCode", otpCode)]⟩,
     { db with passwordResets :=
         db.passwordResets ++ [⟨freshId, user.id, otpCode, otpExpiry, false⟩] })

/-- POST /api/auth/reset-password.  `hashFn` stands for `hashPassword`
(bcrypt).  The final two updates run inside `prisma.$transaction`, so the
embedding applies them to the state together. -/
def resetPassword (db : DB) (now : Nat) (email otpCode newPassword : String)
    (hashFn : String → String) : Response × DB :=
  match findUserByEmail db email with
  | none => (⟨400, [("error", "Invalid request")]⟩, db)
  | some user =>
    match findValidReset db user.id otpCode now with
    | none => (⟨400, [("error", "Invalid or expired OTP")]⟩, db)
    | some pr =>
      (⟨200, [("message", "Password reset successful")]⟩,
       { db with
           users := db.users.map fun u =>
             if u.id = user.id then { u with passwordHash := hashFn newPassword } else u,
           passwordResets := db.passwordResets.map fun r =>
             if r.id = pr.id then { r with isUsed := true } else r })

/-! ## src/routes/job.routes.ts — PATCH /api/jobs/:id/status -/

/-- PATCH /api/jobs/:id/status (shop owner only; `userId` is the
authenticated caller's id from the middleware).  The success body carries the
echoed job's new status. -/
def updateJobStatus (db : DB) (userId jobId : Nat) (status : String) : Response × DB :=
  if !(["open", "closed", "completed"].contains status) then
    (⟨400, [("error", "Invalid status")]⟩, db)
  else
    match findShopByUserId db userId with
    | none => (⟨404, [("error", "Shop profile not found")]⟩, db)
    | some shop =>
      match findJobByIdAndShop db jobId shop.id with
      | none => (⟨404, [("error", "Job not found or unauthorized")]⟩, db)
      | some _ =>
        (⟨200, [("message", "Job status updated"), ("status", status)]⟩,
         { db with shopJobPosts := db.shopJobPosts.map fun j =>
             if j.id = jobId then { j with status := status } else j })

/-! ## src/routes/application.routes.ts -/

/-- The zod enum of `updateStatusSchema`. -/
def applicationStatuses : List String := ["pending", "accepted", "rejected", "withdrawn"]

/-- POST /api/applications (job seeker only; `userId` is the authenticated
caller's id).  `freshId` is the id the store assigns to a created row; a
created application starts in the schema's default status "pending". -/
def createApplication (db : DB) (userId postId freshId : Nat) : Response × DB :=
  match findProfileByUserId db userId with
  | none =>
    (⟨404, [("error", "Job seeker profile not found. Please complete your profile first.")]⟩, db)
  | some profile =>
    match findJobById db postId with
    | none => (⟨404, [("error", "Job not found")]⟩, db)
    | some job =>
      if job.status ≠ "open" then
        (⟨400, [("error", "Job is no longer accepting applications")]⟩, db)
      else
        match findApplicationByPair db profile.id postId with
        | some _ => (⟨400, [("error", "You have already applied to this job")]⟩, db)
        | none =>
          (⟨201, [("message", "Application submitted successfully")]⟩,
           { db with applications :=
               db.applications ++ [⟨freshId, profile.id, postId, "pending"⟩] })

/-- PATCH /api/applications/:id/status (shop owner only).  A status outside
the zod enum is a `ZodError`, reported as a 400 validation error.  The
`include: post` relation is the lookup of the application's parent job; a
dangling foreign key would throw in the handler and surface as the catch-all
500, which the embedding reproduces. -/
def updateApplicationStatus (db : DB) (userId appId : Nat) (status : String) : Response × DB :=
  if !(applicationStatuses.contains status) then
    (⟨400, [("error", "Validation error")]⟩, db)
  else
    match findShopByUserId db userId with
    | none => (⟨404, [("error", "Shop profile not found")]⟩, db)
    | some shop =>
      match findApplicationById db appId with
      | none => (⟨404, [("error", "Application not found")]⟩, db)
      | some app =>
        match findJobById db app.postId with
        | none => (⟨500, [("error", "Failed to update application status")]⟩, db)
        | some post =>
          if post.shopId ≠ shop.id then
            (⟨403, [("error", "Unauthorized to update this application")]⟩, db)
          else
            (⟨200, [("message", "Application status updated"), ("status", status)]⟩,
             { db with applications := db.applications.map fun a =>
                 if a.id = appId then { a with status := status } else a })

/-! ## Shared helper lemmas -/

/-- Every digit below ten prints as a decimal digit character. -/
theorem digitChar_isDigit {d : Nat} (hd : d < 10) : (Nat.digitChar d).isDigit = true := by
  interval_cases d <;> decide

/-- C9: For every draw of the underlying random source in [0, 1), `generateOTP`
returns a string of exactly six decimal digits whose numeric value lies in the
inclusive range [100000, 999999]. -/
theorem generateOTP_six_digits (r : ℚ) (h0 : 0 ≤ r) (h1 : r < 1) :
    100000 ≤ generateOTPNum r ∧ generateOTPNum r ≤ 999999 ∧
    (generateOTP r).length = 6 ∧ (generateOTP r).toList.all Char.isDigit = true := by
  have hx0 : (100000 : ℚ) ≤ 100000 + r * 900000 := by nlinarith
  have hx1 : (100000 : ℚ) + r * 900000 < 1000000 := by nlinarith
  have hfl0 : (100000 : ℤ) ≤ Int.floor (100000 + r * 900000 : ℚ) := by
    exact Int.le_floor.mpr (by exact_mod_cast hx0)
  have hfl1 : Int.floor (100000 + r * 900000 : ℚ) < 1000000 := by
    exact Int.floor_lt.mpr (by exact_mod_cast hx1)
  have hlo : 100000 ≤ generateOTPNum r := by
    unfold generateOTPNum; omega
  have hhi : generateOTPNum r ≤ 999999 := by
    unfold generateOTPNum; omega
  have hne : generateOTPNum r ≠ 0 := by omega
  have hlog : Nat.log 10 (generateOTPNum r) = 5 := by
    apply Nat.log_eq_of_pow_le_of_lt_pow
    · norm_num; omega
    · norm_num; omega
  have hdiglen : (Nat.digits 10 (generateOTPNum r)).length = 6 := by
    rw [Nat.digits_len 10 _ (by norm_num) hne, hlog]
  refine ⟨hlo, hhi, ?_, ?_⟩
  · show (String.mk ((Nat.digits 10 (generateOTPNum r)).reverse.map Nat.digitChar)).length = 6
    simp [String.length, hdiglen]
  · show (String.mk ((Nat.digits 10 (generateOTPNum r)).reverse.map Nat.digitChar)).toList.all
      Char.isDigit = true
    simp only [String.toList, String.mk, List.all_eq_true, List.mem_map, List.mem_reverse]
    rintro c ⟨d, hd, rfl⟩
    exact digitChar_isDigit (Nat.digits_lt_base (by norm_num) hd)

/-- C9 witness at the draw r = 0. -/
theorem generateOTP_six_digits_witness :
    (0 : ℚ) ≤ 0 ∧ (0 : ℚ) < 1 ∧
    (100000 ≤ generateOTPNum 0 ∧ generateOTPNum 0 ≤ 999999 ∧
     (generateOTP 0).length = 6 ∧ (generateOTP 0).toList.all Char.isDigit = true) :=
  ⟨le_refl 0, zero_lt_one, generateOTP_six_digits 0 (le_refl 0) zero_lt_one⟩

/-- C10: A login whose email resolves to a deactivated identity is rejected with
the distinct 403 "Account is deactivated" response, for every supplied
password and every password-comparison outcome (so before the password is
verified), and that response differs from the 401 "Invalid email or password"
rejection used for unknown emails and wrong passwords. -/
theorem login_deactivated_distinct (db : DB) (email password : String)
    (cmp : String → String → Bool) (token : String) (u : User)
    (hu : findUserByEmail db email = some u) (hin : u.isActive = false) :
    login db email password cmp token = ⟨403, [("error", "Account is deactivated")]⟩ ∧
    login db email password cmp token ≠ ⟨401, [("error", "Invalid email or password")]⟩ := by
  have h : login db email password cmp token = ⟨403, [("error", "Account is deactivated")]⟩ := by
    unfold login
    rw [hu]
    simp [hin]
  exact ⟨h, by rw [h]; simp⟩

/-- C10 witness: a concrete store with one deactivated identity. -/
theorem login_deactivated_distinct_witness :
    findUserByEmail ⟨[⟨1, "a@x.com", "h", 1, false⟩], [], [], [], [], [], []⟩ "a@x.com"
      = some ⟨1, "a@x.com", "h", 1, false⟩ ∧
    (login ⟨[⟨1, "a@x.com", "h", 1, false⟩], [], [], [], [], [], []⟩ "a@x.com" "pw"
        (fun _ _ => true) "tok" = ⟨403, [("error", "Account is deactivated")]⟩ ∧
     login ⟨[⟨1, "a@x.com", "h", 1, false⟩], [], [], [], [], [], []⟩ "a@x.com" "pw"
        (fun _ _ => true) "tok" ≠ ⟨401, [("error", "Invalid email or password")]⟩) :=
  ⟨by decide,
   login_deactivated_distinct ⟨[⟨1, "a@x.com", "h", 1, false⟩], [], [], [], [], [], []⟩
     "a@x.com" "pw" (fun _ _ => true) "tok" ⟨1, "a@x.com", "h", 1, false⟩ (by decide) rfl⟩

/-- C8 counterexample: a token signed with the wrong key and an expired token
have different `jwtVerify` causes, yet `verifyToken` — the repository's
internal verification function — returns the identical error for both, so the
two failure causes are not distinguishable internally. -/
theorem verifyToken_collapses_causes :
    jwtVerify ⟨⟨1, "a@x.com", 1⟩, 1000, "other"⟩ "key" 0 = .error .invalidToken ∧
    jwtVerify ⟨⟨1, "a@x.com", 1⟩, 50, "key"⟩ "key" 50 = .error .expiredToken ∧
    verifyToken ⟨⟨1, "a@x.com", 1⟩, 1000, "other"⟩ "key" 0
      = verifyToken ⟨⟨1, "a@x.com", 1⟩, 50, "key"⟩ "key" 50 := by
  refine ⟨?_, ?_, ?_⟩ <;> rfl

/-- C8 (amended): Token verification fails when the signature does not match the process
signing key and when the current time is at or past the embedded expiry, but
`verifyToken` maps both causes to the single error "Invalid or expired
token", and the middleware maps both to the same 401 rejection; the two
causes are not distinguishable from `verifyToken`'s result. -/
theorem verifyToken_uniform_error (t : Token) (secret : String) (now : Nat)
    (h : t.signedWith ≠ secret ∨ now ≥ t.exp) :
    verifyToken t secret now = .error "Invalid or expired token" ∧
    authenticate (some t) secret now
      = .reject ⟨401, [("error", "Invalid or expired token")]⟩ := by
  have hv : verifyToken t secret now = .error "Invalid or expired token" := by
    unfold verifyToken jwtVerify
    by_cases hs : t.signedWith = secret
    · rcases h with h | h
      · exact absurd hs h
      · simp [hs, h]
    · simp [hs]
  refine ⟨hv, ?_⟩
  simp [authenticate, hv]

/-- C8 witness: an expired token with a matching key. -/
theorem verifyToken_uniform_error_witness :
    ((⟨⟨1, "a@x.com", 1⟩, 50, "key"⟩ : Token).signedWith ≠ "key" ∨ 50 ≥ (50 : Nat)) ∧
    (verifyToken ⟨⟨1, "a@x.com", 1⟩, 50, "key"⟩ "key" 50
        = .error "Invalid or expired token" ∧
     authenticate (some ⟨⟨1, "a@x.com", 1⟩, 50, "key"⟩) "key" 50
        = .reject ⟨401, [("error", "Invalid or expired token")]⟩) :=
  ⟨Or.inr (le_refl 50),
   verifyToken_uniform_error ⟨⟨1, "a@x.com", 1⟩, 50, "key"⟩ "key" 50 (Or.inr (le_refl 50))⟩

/-- C1: evaluating the recovery request at the failing input.  For the
absent email the handler performs no side effect, but its success response
(message "If email exists, OTP has been sent") differs from the present-email
success response (message "OTP sent to email" plus the OTP itself), so the
two cases are distinguishable, contrary to the handler's own
"Don't reveal if email exists" intent. -/
theorem forgotPassword_existence_oracle :
    (forgotPassword ⟨[], [], [], [], [], [], []⟩ "a@x.com" 1 "123456" 100).2
      = ⟨[], [], [], [], [], [], []⟩ ∧
    (forgotPassword ⟨[], [], [], [], [], [], []⟩ "a@x.com" 1 "123456" 100).1
      = ⟨200, [("message", "If email exists, OTP has been sent")]⟩ ∧
    (forgotPassword ⟨[⟨1, "a@x.com", "h", 1, true⟩], [], [], [], [], [], []⟩
        "a@x.com" 1 "123456" 100).1
      = ⟨200, [("message", "OTP sent to email"), ("otpCode", "123456")]⟩ ∧
    (forgotPassword ⟨[], [], [], [], [], [], []⟩ "a@x.com" 1 "123456" 100).1
      ≠ (forgotPassword ⟨[⟨1, "a@x.com", "h", 1, true⟩], [], [], [], [], [], []⟩
          "a@x.com" 1 "123456" 100).1 := by
  refine ⟨rfl, rfl, rfl, ?_⟩
  decide

/-- C2 counterexample: a posting in status "closed", owned by the caller's
shop, is moved back to "open" by the status-update handler with a 200
response — the transition closed → open neither fails nor leaves the status
unchanged. -/
theorem updateJobStatus_reopens_closed :
    updateJobStatus ⟨[], [], [], [], [⟨1, 10⟩], [⟨5, 1, "closed"⟩], []⟩ 10 5 "open"
      = (⟨200, [("message", "Job status updated"), ("status", "open")]⟩,
         ⟨[], [], [], [], [⟨1, 10⟩], [⟨5, 1, "open"⟩], []⟩) := by
  decide

/-- C2 (amended): the job status-update operation checks only that the
requested status is one of "open", "closed", "completed" and that the posting
belongs to the caller's shop; given those, it sets the requested status
regardless of the posting's current status (so closed → open and
completed → anything are accepted as well). -/
theorem updateJobStatus_any_status_accepted (db : DB) (userId jobId : Nat)
    (status : String) (shop : Shop) (job : ShopJobPost)
    (hst : ["open", "closed", "completed"].contains status = true)
    (hshop : findShopByUserId db userId = some shop)
    (hjob : findJobByIdAndShop db jobId shop.id = some job) :
    updateJobStatus db userId jobId status
      = (⟨200, [("message", "Job status updated"), ("status", status)]⟩,
         { db with shopJobPosts := db.shopJobPosts.map fun j =>
             if j.id = jobId then { j with status := status } else j }) := by
  have hst2 : status = "open" ∨ status = "closed" ∨ status = "completed" := by simpa using hst
  simp [updateJobStatus, hshop, hjob]
  tauto

/-- C2 witness: a completed posting set back to "open". -/
theorem updateJobStatus_any_status_accepted_witness :
    (["open", "closed", "completed"].contains "open" = true) ∧
    findShopByUserId ⟨[], [], [], [], [⟨3, 30⟩], [⟨8, 3, "completed"⟩], []⟩ 30 = some ⟨3, 30⟩ ∧
    findJobByIdAndShop ⟨[], [], [], [], [⟨3, 30⟩], [⟨8, 3, "completed"⟩], []⟩ 8 3
      = some ⟨8, 3, "completed"⟩ ∧
    updateJobStatus ⟨[], [], [], [], [⟨3, 30⟩], [⟨8, 3, "completed"⟩], []⟩ 30 8 "open"
      = (⟨200, [("message", "Job status updated"), ("status", "open")]⟩,
         { (⟨[], [], [], [], [⟨3, 30⟩], [⟨8, 3, "completed"⟩], []⟩ : DB) with
             shopJobPosts :=
               (⟨[], [], [], [], [⟨3, 30⟩], [⟨8, 3, "completed"⟩], []⟩ : DB).shopJobPosts.map
                 fun j => if j.id = 8 then { j with status := "open" } else j }) :=
  ⟨by decide, by decide, by decide,
   updateJobStatus_any_status_accepted ⟨[], [], [], [], [⟨3, 30⟩], [⟨8, 3, "completed"⟩], []⟩
     30 8 "open" ⟨3, 30⟩ ⟨8, 3, "completed"⟩ (by decide) (by decide) (by decide)⟩

/-- C3 counterexample: an application in status "accepted" (not "pending"),
whose parent job belongs to the caller's shop, is set to "withdrawn" by the
owner-initiated status update with a 200 response — a non-pending application
is changed, and the withdrawn outcome is reached by the shop owner's status
update. -/
theorem updateApplicationStatus_owner_sets_withdrawn :
    updateApplicationStatus
        ⟨[], [], [], [], [⟨1, 10⟩], [⟨5, 1, "open"⟩], [⟨7, 2, 5, "accepted"⟩]⟩ 10 7 "withdrawn"
      = (⟨200, [("message", "Application status updated"), ("status", "withdrawn")]⟩,
         ⟨[], [], [], [], [⟨1, 10⟩], [⟨5, 1, "open"⟩], [⟨7, 2, 5, "withdrawn"⟩]⟩) := by
  decide

/-- C3 (amended): the owner-initiated application status update checks only
that the requested status is in the zod enum ("pending", "accepted",
"rejected", "withdrawn") and that the application's parent job belongs to the
caller's shop; given those, it sets the requested status regardless of the
application's current status, so non-pending applications can be changed and
"withdrawn" can be set by the shop owner. -/
theorem updateApplicationStatus_any_status_accepted (db : DB) (userId appId : Nat)
    (status : String) (shop : Shop) (app : Application) (post : ShopJobPost)
    (hst : applicationStatuses.contains status = true)
    (hshop : findShopByUserId db userId = some shop)
    (happ : findApplicationById db appId = some app)
    (hpost : findJobById db app.postId = some post)
    (hown : post.shopId = shop.id) :
    updateApplicationStatus db userId appId status
      = (⟨200, [("message", "Application status updated"), ("status", status)]⟩,
         { db with applications := db.applications.map fun a =>
             if a.id = appId then { a with status := status } else a }) := by
  have hst2 : status ∈ applicationStatuses := by simpa using hst
  simp [updateApplicationStatus, hshop, happ, hpost, hown, hst2]

/-- C3 witness: a rejected application set back to "pending" by the owner. -/
theorem updateApplicationStatus_any_status_accepted_witness :
    applicationStatuses.contains "pending" = true ∧
    findShopByUserId ⟨[], [], [], [], [⟨4, 40⟩], [⟨9, 4, "open"⟩], [⟨6, 2, 9, "rejected"⟩]⟩ 40
      = some ⟨4, 40⟩ ∧
    findApplicationById ⟨[], [], [], [], [⟨4, 40⟩], [⟨9, 4, "open"⟩], [⟨6, 2, 9, "rejected"⟩]⟩ 6
      = some ⟨6, 2, 9, "rejected"⟩ ∧
    updateApplicationStatus
        ⟨[], [], [], [], [⟨4, 40⟩], [⟨9, 4, "open"⟩], [⟨6, 2, 9, "rejected"⟩]⟩ 40 6 "pending"
      = (⟨200, [("message", "Application status updated"), ("status", "pending")]⟩,
         { (⟨[], [], [], [], [⟨4, 40⟩], [⟨9, 4, "open"⟩], [⟨6, 2, 9, "rejected"⟩]⟩ : DB) with
             applications :=
               (⟨[], [], [], [], [⟨4, 40⟩], [⟨9, 4, "open"⟩],
                 [⟨6, 2, 9, "rejected"⟩]⟩ : DB).applications.map
                 fun a => if a.id = 6 then { a with status := "pending" } else a }) :=
  ⟨by decide, by decide, by decide,
   updateApplicationStatus_any_status_accepted
     ⟨[], [], [], [], [⟨4, 40⟩], [⟨9, 4, "open"⟩], [⟨6, 2, 9, "rejected"⟩]⟩ 40 6 "pending"
     ⟨4, 40⟩ ⟨6, 2, 9, "rejected"⟩ ⟨9, 4, "open"⟩
     (by decide) (by decide) (by decide) (by decide) rfl⟩

/-- C4 counterexample: for the application status update, an application that
exists but belongs to a different shop yields 403 "Unauthorized to update
this application", while a nonexistent id yields 404 "Application not found"
— the two responses differ in both status and shape, so the mutation does not
produce the merged NotFoundOrUnauthorized signal. -/
theorem applicationStatus_distinguishes_absent_from_foreign :
    (updateApplicationStatus
        ⟨[], [], [], [], [⟨1, 10⟩, ⟨2, 20⟩], [⟨5, 2, "open"⟩], [⟨7, 3, 5, "pending"⟩]⟩
        10 7 "accepted").1
      = ⟨403, [("error", "Unauthorized to update this application")]⟩ ∧
    (updateApplicationStatus ⟨[], [], [], [], [⟨1, 10⟩], [], []⟩ 10 7 "accepted").1
      = ⟨404, [("error", "Application not found")]⟩ ∧
    (updateApplicationStatus
        ⟨[], [], [], [], [⟨1, 10⟩, ⟨2, 20⟩], [⟨5, 2, "open"⟩], [⟨7, 3, 5, "pending"⟩]⟩
        10 7 "accepted").1
      ≠ (updateApplicationStatus ⟨[], [], [], [], [⟨1, 10⟩], [], []⟩ 10 7 "accepted").1 := by
  refine ⟨rfl, rfl, ?_⟩
  decide

/-- C4 (amended): the job-posting status update reports a nonexistent posting
and a posting owned by another shop identically (the merged 404 "Job not
found or unauthorized"), but the application status update distinguishes the
two cases: 404 "Application not found" when the application is absent, 403
"Unauthorized to update this application" when it exists under another shop;
in every such case the store is unchanged. -/
theorem ownership_error_reporting :
    (∀ (db : DB) (userId jobId : Nat) (status : String) (shop : Shop),
       ["open", "closed", "completed"].contains status = true →
       findShopByUserId db userId = some shop →
       findJobByIdAndShop db jobId shop.id = none →
       updateJobStatus db userId jobId status
         = (⟨404, [("error", "Job not found or unauthorized")]⟩, db))
  ∧ (∀ (db : DB) (userId appId : Nat) (status : String) (shop : Shop),
       applicationStatuses.contains status = true →
       findShopByUserId db userId = some shop →
       findApplicationById db appId = none →
       updateApplicationStatus db userId appId status
         = (⟨404, [("error", "Application not found")]⟩, db))
  ∧ (∀ (db : DB) (userId appId : Nat) (status : String) (shop : Shop)
       (app : Application) (post : ShopJobPost),
       applicationStatuses.contains status = true →
       findShopByUserId db userId = some shop →
       findApplicationById db appId = some app →
       findJobById db app.postId = some post →
       post.shopId ≠ shop.id →
       updateApplicationStatus db userId appId status
         = (⟨403, [("error", "Unauthorized to update this application")]⟩, db)) := by
  refine ⟨?_, ?_, ?_⟩
  · intro db userId jobId status shop hst hshop hjob
    have hst2 : status = "open" ∨ status = "closed" ∨ status = "completed" := by simpa using hst
    simp [updateJobStatus, hshop, hjob]
    tauto
  · intro db userId appId status shop hst hshop happ
    have hst2 : status ∈ applicationStatuses := by simpa using hst
    simp [updateApplicationStatus, hshop, happ, hst2]
  · intro db userId appId status shop app post hst hshop happ hpost hown
    have hst2 : status ∈ applicationStatuses := by simpa using hst
    simp [updateApplicationStatus, hshop, happ, hpost, hown, hst2]

/-- C4 witness: the merged job signal on a foreign-owned posting, the absent
application, and the foreign-owned application. -/
theorem ownership_error_reporting_witness :
    updateJobStatus ⟨[], [], [], [], [⟨1, 10⟩], [⟨5, 2, "open"⟩], []⟩ 10 5 "closed"
      = (⟨404, [("error", "Job not found or unauthorized")]⟩,
         ⟨[], [], [], [], [⟨1, 10⟩], [⟨5, 2, "open"⟩], []⟩) ∧
    updateApplicationStatus ⟨[], [], [], [], [⟨1, 10⟩], [], []⟩ 10 3 "rejected"
      = (⟨404, [("error", "Application not found")]⟩,
         ⟨[], [], [], [], [⟨1, 10⟩], [], []⟩) ∧
    updateApplicationStatus
        ⟨[], [], [], [], [⟨1, 10⟩, ⟨2, 20⟩], [⟨5, 2, "open"⟩], [⟨7, 3, 5, "pending"⟩]⟩
        10 7 "rejected"
      = (⟨403, [("error", "Unauthorized to update this application")]⟩,
         ⟨[], [], [], [], [⟨1, 10⟩, ⟨2, 20⟩], [⟨5, 2, "open"⟩], [⟨7, 3, 5, "pending"⟩]⟩) :=
  ⟨ownership_error_reporting.1 ⟨[], [], [], [], [⟨1, 10⟩], [⟨5, 2, "open"⟩], []⟩ 10 5 "closed"
     ⟨1, 10⟩ (by decide) (by decide) (by decide),
   ownership_error_reporting.2.1 ⟨[], [], [], [], [⟨1, 10⟩], [], []⟩ 10 3 "rejected"
     ⟨1, 10⟩ (by decide) (by decide) (by decide),
   ownership_error_reporting.2.2
     ⟨[], [], [], [], [⟨1, 10⟩, ⟨2, 20⟩], [⟨5, 2, "open"⟩], [⟨7, 3, 5, "pending"⟩]⟩
     10 7 "rejected" ⟨1, 10⟩ ⟨7, 3, 5, "pending"⟩ ⟨5, 2, "open"⟩
     (by decide) (by decide) (by decide) (by decide) (by decide)⟩

/-- C5: the password-hash update and the marking of the matched reset record
as used happen as one atomic unit: for every store and input, either the
post-state is unchanged, or a user and a matching record exist such that the
post-state carries both the new password hash for that user and the used flag
on that specific record (with the success response). -/
theorem resetPassword_atomic :
    ∀ (db : DB) (now : Nat) (email otpCode newPassword : String) (hashFn : String → String),
      (resetPassword db now email otpCode newPassword hashFn).2 = db ∨
      (∃ u pr, findUserByEmail db email = some u ∧
        findValidReset db u.id otpCode now = some pr ∧
        (resetPassword db now email otpCode newPassword hashFn).1
          = ⟨200, [("message", "Password reset successful")]⟩ ∧
        (resetPassword db now email otpCode newPassword hashFn).2.users
          = db.users.map (fun x =>
              if x.id = u.id then { x with passwordHash := hashFn newPassword } else x) ∧
        (resetPassword db now email otpCode newPassword hashFn).2.passwordResets
          = db.passwordResets.map (fun r =>
              if r.id = pr.id then { r with isUsed := true } else r)) := by
  intro db now email otpCode newPassword hashFn
  cases hu : findUserByEmail db email with
  | none => left; simp [resetPassword, hu]
  | some u =>
    cases hr : findValidReset db u.id otpCode now with
    | none => left; simp [resetPassword, hu, hr]
    | some pr =>
      right
      exact ⟨u, pr, rfl, hr, by simp [resetPassword, hu, hr],
        by simp [resetPassword, hu, hr], by simp [resetPassword, hu, hr]⟩

/-- C6: when the caller's email resolves to an identity but no reset record
matches (identity, code, unused, unexpired) — wrong code, reused code and
expired code alike — the handler fails with the single 400 "Invalid or
expired OTP" response and leaves the store unchanged; and after a successful
consumption whose matched record was the only matching one, a second
consumption of the same code fails the same way and leaves the post-state
unchanged. -/
theorem resetPassword_uniform_failure :
    (∀ (db : DB) (now : Nat) (email otpCode newPassword : String)
        (hashFn : String → String) (u : User),
       findUserByEmail db email = some u →
       findValidReset db u.id otpCode now = none →
       resetPassword db now email otpCode newPassword hashFn
         = (⟨400, [("error", "Invalid or expired OTP")]⟩, db))
  ∧ (∀ (db : DB) (now now2 : Nat) (email otpCode newPw1 newPw2 : String)
        (hashFn : String → String) (u : User) (pr : PasswordReset),
       findUserByEmail db email = some u →
       findValidReset db u.id otpCode now = some pr →
       (∀ r ∈ db.passwordResets, matchesReset u.id otpCode now2 r = true → r = pr) →
       resetPassword (resetPassword db now email otpCode newPw1 hashFn).2
           now2 email otpCode newPw2 hashFn
         = (⟨400, [("error", "Invalid or expired OTP")]⟩,
            (resetPassword db now email otpCode newPw1 hashFn).2)) := by
  constructor
  · intro db now email otpCode newPassword hashFn u hu hr
    simp [resetPassword, hu, hr]
  · intro db now now2 email otpCode newPw1 newPw2 hashFn u pr hu hr huniq
    have hdb : (resetPassword db now email otpCode newPw1 hashFn).2
        = { db with
            users := db.users.map fun x =>
              if x.id = u.id then { x with passwordHash := hashFn newPw1 } else x,
            passwordResets := db.passwordResets.map fun r =>
              if r.id = pr.id then { r with isUsed := true } else r } := by
      simp [resetPassword, hu, hr]
    rw [hdb]
    have hu2 : findUserByEmail
        { db with
            users := db.users.map fun x =>
              if x.id = u.id then { x with passwordHash := hashFn newPw1 } else x,
            passwordResets := db.passwordResets.map fun r =>
              if r.id = pr.id then { r with isUsed := true } else r } email
        = some { u with passwordHash := hashFn newPw1 } := by
      show (db.users.map fun x =>
          if x.id = u.id then { x with passwordHash := hashFn newPw1 } else x).find?
          (fun x => x.email == email) = _
      rw [List.find?_map]
      have hpf : ((fun (x : User) => x.email == email) ∘ fun x =>
          if x.id = u.id then { x with passwordHash := hashFn newPw1 } else x)
          = fun x => x.email == email := by
        funext x
        by_cases hx : x.id = u.id <;> simp [hx]
      rw [hpf]
      rw [show db.users.find? (fun x => x.email == email) = some u from hu]
      simp
    have hr2 : findValidReset
        { db with
            users := db.users.map fun x =>
              if x.id = u.id then { x with passwordHash := hashFn newPw1 } else x,
            passwordResets := db.passwordResets.map fun r =>
              if r.id = pr.id then { r with isUsed := true } else r } u.id otpCode now2
        = none := by
      show (db.passwordResets.map fun r =>
          if r.id = pr.id then { r with isUsed := true } else r).find?
          (matchesReset u.id otpCode now2) = none
      rw [List.find?_eq_none]
      intro x hx
      rw [List.mem_map] at hx
      obtain ⟨r0, hr0mem, rfl⟩ := hx
      by_cases hid : r0.id = pr.id
      · rw [if_pos hid]
        simp [matchesReset]
      · rw [if_neg hid]
        intro hm
        exact hid (by rw [huniq r0 hr0mem hm])
    simp [resetPassword, hu2, hr2]

/-- C6 witness: one identity and one matching record; the first consumption
succeeds and the second fails with the uniform error on the unchanged
post-state. -/
theorem resetPassword_uniform_failure_witness :
    findUserByEmail ⟨[⟨1, "a@x.com", "h", 1, true⟩], [], [⟨3, 1, "123456", 100, false⟩],
        [], [], [], []⟩ "a@x.com" = some ⟨1, "a@x.com", "h", 1, true⟩ ∧
    findValidReset ⟨[⟨1, "a@x.com", "h", 1, true⟩], [], [⟨3, 1, "123456", 100, false⟩],
        [], [], [], []⟩ 1 "123456" 50 = some ⟨3, 1, "123456", 100, false⟩ ∧
    resetPassword
        (resetPassword ⟨[⟨1, "a@x.com", "h", 1, true⟩], [], [⟨3, 1, "123456", 100, false⟩],
            [], [], [], []⟩ 50 "a@x.com" "123456" "newpw1" (fun s => s)).2
        50 "a@x.com" "123456" "newpw2" (fun s => s)
      = (⟨400, [("error", "Invalid or expired OTP")]⟩,
         (resetPassword ⟨[⟨1, "a@x.com", "h", 1, true⟩], [], [⟨3, 1, "123456", 100, false⟩],
             [], [], [], []⟩ 50 "a@x.com" "123456" "newpw1" (fun s => s)).2) :=
  ⟨by decide, by decide,
   resetPassword_uniform_failure.2
     ⟨[⟨1, "a@x.com", "h", 1, true⟩], [], [⟨3, 1, "123456", 100, false⟩], [], [], [], []⟩
     50 50 "a@x.com" "123456" "newpw1" "newpw2" (fun s => s)
     ⟨1, "a@x.com", "h", 1, true⟩ ⟨3, 1, "123456", 100, false⟩
     (by decide) (by decide) (by decide)⟩

/-- C7: application creation checks its four preconditions in order — seeker
profile, posting existence, posting open, no duplicate for the (seeker,
posting) pair — the first failing check determines the error, on any failure
the store is unchanged, and when all pass exactly one pending application for
the pair is appended. -/
theorem createApplication_check_order :
    ∀ (db : DB) (userId postId freshId : Nat),
      (findProfileByUserId db userId = none →
        createApplication db userId postId freshId
          = (⟨404, [("error",
              "Job seeker profile not found. Please complete your profile first.")]⟩, db))
    ∧ (∀ profile, findProfileByUserId db userId = some profile →
        findJobById db postId = none →
        createApplication db userId postId freshId
          = (⟨404, [("error", "Job not found")]⟩, db))
    ∧ (∀ profile job, findProfileByUserId db userId = some profile →
        findJobById db postId = some job → job.status ≠ "open" →
        createApplication db userId postId freshId
          = (⟨400, [("error", "Job is no longer accepting applications")]⟩, db))
    ∧ (∀ profile job app, findProfileByUserId db userId = some profile →
        findJobById db postId = some job → job.status = "open" →
        findApplicationByPair db profile.id postId = some app →
        createApplication db userId postId freshId
          = (⟨400, [("error", "You have already applied to this job")]⟩, db))
    ∧ (∀ profile job, findProfileByUserId db userId = some profile →
        findJobById db postId = some job → job.status = "open" →
        findApplicationByPair db profile.id postId = none →
        createApplication db userId postId freshId
          = (⟨201, [("message", "Application submitted successfully")]⟩,
             { db with applications :=
                 db.applications ++ [⟨freshId, profile.id, postId, "pending"⟩] })) := by
  intro db userId postId freshId
  refine ⟨?_, ?_, ?_, ?_, ?_⟩
  · intro hp
    simp [createApplication, hp]
  · intro profile hp hj
    simp [createApplication, hp, hj]
  · intro profile job hp hj hst
    simp [createApplication, hp, hj, hst]
  · intro profile job app hp hj hst hdup
    simp [createApplication, hp, hj, hst, hdup]
  · intro profile job hp hj hst hdup
    simp [createApplication, hp, hj, hst, hdup]

/-- C7 witness: the duplicate check fires on an existing pair, and with no
duplicate the pending application is appended. -/
theorem createApplication_check_order_witness :
    createApplication ⟨[], [], [], [⟨2, 10⟩], [], [⟨5, 1, "open"⟩], [⟨8, 2, 5, "pending"⟩]⟩
        10 5 9
      = (⟨400, [("error", "You have already applied to this job")]⟩,
         ⟨[], [], [], [⟨2, 10⟩], [], [⟨5, 1, "open"⟩], [⟨8, 2, 5, "pending"⟩]⟩) ∧
    createApplication ⟨[], [], [], [⟨2, 10⟩], [], [⟨5, 1, "open"⟩], []⟩ 10 5 9
      = (⟨201, [("message", "Application submitted successfully")]⟩,
         { (⟨[], [], [], [⟨2, 10⟩], [], [⟨5, 1, "open"⟩], []⟩ : DB) with
             applications := (⟨[], [], [], [⟨2, 10⟩], [], [⟨5, 1, "open"⟩],
               []⟩ : DB).applications ++ [⟨9, 2, 5, "pending"⟩] }) :=
  ⟨(createApplication_check_order
      ⟨[], [], [], [⟨2, 10⟩], [], [⟨5, 1, "open"⟩], [⟨8, 2, 5, "pending"⟩]⟩ 10 5 9).2.2.2.1
      ⟨2, 10⟩ ⟨5, 1, "open"⟩ ⟨8, 2, 5, "pending"⟩ (by decide) (by decide) rfl (by decide),
   (createApplication_check_order
      ⟨[], [], [], [⟨2, 10⟩], [], [⟨5, 1, "open"⟩], []⟩ 10 5 9).2.2.2.2
      ⟨2, 10⟩ ⟨5, 1, "open"⟩ (by decide) (by decide) rfl (by decide)⟩

end JobAPI
